import Mathlib

/-!
Shallow embedding of the runtime type-identification registry in
`aten/src/ATen/core/typeid.h` (namespace `caffe2`): the `TypeIdentifier`
id allocator (reserved / preallocated ids 0..27 plus dynamic ids), the
per-type operation-table records (`detail::TypeMetaData`, built by
`detail::TypeMetaDataRegistry<T>`), and the `TypeMeta` handle whose
equality is pointer identity of the referenced record.

C++ types are modelled by a descriptor `CppType` carrying the trait
information the header branches on (`std::is_fundamental`,
`std::is_pointer`, `std::is_default_constructible`,
`std::is_copy_assignable`), the type's `sizeof`, its display name
(the `#T` stringification / demangled name), and its preallocated id
when the type was registered with `CAFFE_PREALLOCATED_KNOWN_TYPE`.
Distinct C++ types have distinct names, so the name doubles as the
type's identity in the model.
-/

/-- Descriptor of a concrete C++ type, as seen by the registry. -/
structure CppType where
  name : String
  isFundamental : Bool
  isPointer : Bool
  isDefaultConstructible : Bool
  isCopyAssignable : Bool
  size : Nat
  prealloc : Option Nat
deriving DecidableEq, Repr

/-- `class TypeIdentifier final : public at::IdWrapper<TypeIdentifier, uint16_t>`
(typeid.h line 42).  The underlying machine integer is a `uint16_t`; the model
carries it as a `Nat`, and the allocator below never issues a value outside
`[0, 2^16)`. -/
structure TypeIdentifier where
  underlyingId : Nat
deriving DecidableEq, Repr

/-- `TypeIdentifier::uninitialized()` returns `TypeIdentifier(11)`
(typeid.h lines 52-54). -/
def TypeIdentifier.uninitialized : TypeIdentifier := ⟨11⟩

/-- `operator<(TypeIdentifier lhs, TypeIdentifier rhs)` (typeid.h lines 73-75):
`lhs.underlyingId() < rhs.underlyingId()`. -/
def TypeIdentifier.ltOp (lhs rhs : TypeIdentifier) : Bool :=
  decide (lhs.underlyingId < rhs.underlyingId)

/-!
Memory model for the type-erased element operations.  A storage region is a
list of abstract element values; default-constructing an element of type `T`
writes the value `Val.defaultOf name-of-T`.  The three function-pointer types
of `detail::TypeMetaData` become Lean functions returning `Except String`,
where `Except.error msg` models a call to
`detail::_ThrowRuntimeTypeLogicError(msg)` (typeid.h line 113).
-/

/-- Abstract element value stored in a typed storage region. -/
inductive Val where
  | defaultOf (tname : String)
  | raw (k : Nat)
deriving DecidableEq, Repr

/-- Storage region, one abstract value per element slot. -/
abbrev Mem := List Val

/-- `using PlacementNew = void(void*, size_t)` (typeid.h line 97), with the
error channel of `_ThrowRuntimeTypeLogicError` made explicit. -/
abbrev PlacementNew := Mem → Nat → Except String Mem

/-- `using TypedCopy = void(const void*, void*, size_t)` (typeid.h line 98). -/
abbrev TypedCopy := Mem → Mem → Nat → Except String Mem

/-- `using TypedDestructor = void(void*, size_t)` (typeid.h line 99). -/
abbrev TypedDestructor := Mem → Nat → Except String Mem

/-- `detail::_Ctor<T>` (typeid.h lines 118-124): placement-new
default-constructs the first `n` elements of the region, leaving the
rest untouched. -/
def _Ctor (t : CppType) : PlacementNew :=
  fun mem n => Except.ok (List.replicate n (Val.defaultOf t.name) ++ mem.drop n)

/-- `detail::_CtorNotDefault<T>` (typeid.h lines 126-131): always raises the
runtime type-logic error naming the type and the unsupported operation. -/
def _CtorNotDefault (t : CppType) : PlacementNew :=
  fun _ _ => Except.error ("Type " ++ t.name ++ " is not default-constructible.")

/-- `detail::_PickCtor<T>` (typeid.h lines 133-147): SFINAE dispatch on
`std::is_default_constructible<T>`. -/
def _PickCtor (t : CppType) : PlacementNew :=
  if t.isDefaultConstructible then _Ctor t else _CtorNotDefault t

/-- `detail::_Copy<T>` (typeid.h lines 152-159): `typed_dst[i] = typed_src[i]`
for `i` in `[0, n)`. -/
def _Copy (_t : CppType) : TypedCopy :=
  fun src dst n => Except.ok (src.take n ++ dst.drop n)

/-- `detail::_CopyNotAllowed<T>` (typeid.h lines 164-172): always raises the
runtime type-logic error naming the type and the unsupported operation. -/
def _CopyNotAllowed (t : CppType) : TypedCopy :=
  fun _ _ _ => Except.error ("Type " ++ t.name ++ " does not allow assignment.")

/-- `detail::_PickCopy<T>` (typeid.h lines 174-188): SFINAE dispatch on
`std::is_copy_assignable<T>`. -/
def _PickCopy (t : CppType) : TypedCopy :=
  if t.isCopyAssignable then _Copy t else _CopyNotAllowed t

/-- `detail::_Dtor<T>` (typeid.h lines 193-199): runs `~T()` on the first `n`
elements.  Destruction never fails and, at this abstraction, does not change
the stored values. -/
def _Dtor (_t : CppType) : TypedDestructor :=
  fun mem _ => Except.ok mem

/-- `struct detail::TypeMetaData` (typeid.h lines 96-107).  A null function
pointer is `none`. -/
structure TypeMetaData where
  itemsize_ : Nat
  ctor_ : Option PlacementNew
  copy_ : Option TypedCopy
  dtor_ : Option TypedDestructor
  id_ : TypeIdentifier
  name_ : String

/-- `detail::TypeMetaDataRegistry<T>::data` (typeid.h lines 208-228): the
fundamental-or-pointer specialization stores null construct/copy/destroy
pointers; the general specialization stores the trait-dispatched full table.
`idOf` supplies the value `TypeIdentifier::Get<T>()` had when the record was
initialized. -/
def TypeMetaDataRegistry.data (idOf : CppType → TypeIdentifier) (t : CppType) :
    TypeMetaData :=
  if t.isFundamental || t.isPointer then
    { itemsize_ := t.size, ctor_ := none, copy_ := none, dtor_ := none,
      id_ := idOf t, name_ := t.name }
  else
    { itemsize_ := t.size, ctor_ := some (_PickCtor t),
      copy_ := some (_PickCopy t), dtor_ := some (_Dtor t),
      id_ := idOf t, name_ := t.name }

/-- Address of an operation-table record.  In C++ each type `T` owns one
static record `TypeMetaDataRegistry<T>::data`, and `TypeMeta::uninitialized_`
is one further static record, so record addresses are exactly: the sentinel
record, or the record of one concrete type.  Distinct constructors model
distinct addresses. -/
inductive RecordPtr where
  | uninitializedRec
  | registryRec (t : CppType)
deriving DecidableEq, Repr

/-- `class TypeMeta` (typeid.h lines 238-343): a handle holding one pointer
`const detail::TypeMetaData* data_`. -/
structure TypeMeta where
  data_ : RecordPtr
deriving DecidableEq, Repr

/-- `TypeMeta::uninitialized_` (typeid.h line 342): the sentinel record
`{0, nullptr, nullptr, nullptr, TypeIdentifier::uninitialized(), "nullptr (uninitialized)"}`. -/
def TypeMeta.uninitialized_ : TypeMetaData :=
  { itemsize_ := 0, ctor_ := none, copy_ := none, dtor_ := none,
    id_ := TypeIdentifier.uninitialized, name_ := "nullptr (uninitialized)" }

/-- Dereference a record pointer. -/
def RecordPtr.deref (idOf : CppType → TypeIdentifier) : RecordPtr → TypeMetaData
  | RecordPtr.uninitializedRec => TypeMeta.uninitialized_
  | RecordPtr.registryRec t => TypeMetaDataRegistry.data idOf t

/-- `TypeMeta::TypeMeta()` (typeid.h lines 247-248): the default constructor
points the handle at `&uninitialized_`. -/
def TypeMeta.mkDefault : TypeMeta := ⟨RecordPtr.uninitializedRec⟩

/-- `TypeMeta::Make<T>()` (typeid.h lines 333-336): returns
`TypeMeta(&TypeMetaDataRegistry<T>::data)`. -/
def TypeMeta.Make (t : CppType) : TypeMeta := ⟨RecordPtr.registryRec t⟩

/-- `TypeMeta::id()` (typeid.h lines 272-274). -/
def TypeMeta.id (idOf : CppType → TypeIdentifier) (m : TypeMeta) : TypeIdentifier :=
  (m.data_.deref idOf).id_

/-- `TypeMeta::itemsize()` (typeid.h lines 278-280). -/
def TypeMeta.itemsize (idOf : CppType → TypeIdentifier) (m : TypeMeta) : Nat :=
  (m.data_.deref idOf).itemsize_

/-- `TypeMeta::ctor()` (typeid.h lines 284-286). -/
def TypeMeta.ctor (idOf : CppType → TypeIdentifier) (m : TypeMeta) : Option PlacementNew :=
  (m.data_.deref idOf).ctor_

/-- `TypeMeta::copy()` (typeid.h lines 290-292). -/
def TypeMeta.copy (idOf : CppType → TypeIdentifier) (m : TypeMeta) : Option TypedCopy :=
  (m.data_.deref idOf).copy_

/-- `TypeMeta::dtor()` (typeid.h lines 296-298). -/
def TypeMeta.dtor (idOf : CppType → TypeIdentifier) (m : TypeMeta) : Option TypedDestructor :=
  (m.data_.deref idOf).dtor_

/-- `TypeMeta::name()` (typeid.h lines 302-304). -/
def TypeMeta.name (idOf : CppType → TypeIdentifier) (m : TypeMeta) : String :=
  (m.data_.deref idOf).name_

/-- `operator==(const TypeMeta&, const TypeMeta&)` (typeid.h lines 345-347):
pointer identity `lhs.data_ == rhs.data_`. -/
def TypeMeta.eqOp (lhs rhs : TypeMeta) : Bool :=
  decide (lhs.data_ = rhs.data_)

/-- `TypeMeta::Match<T>()` (typeid.h lines 308-311):
`data_ == Make<T>().data_`. -/
def TypeMeta.Match (m : TypeMeta) (t : CppType) : Bool :=
  decide (m.data_ = (TypeMeta.Make t).data_)

/-!
The identifier allocator.  `TypeIdentifier::Get<T>()` is specialized per
type by the two registration macros:

* `CAFFE_PREALLOCATED_KNOWN_TYPE(id, T)` (typeid.h lines 422-433) defines
  `Get<T>()` as the compile-time constant `TypeIdentifier(id)`;
* `CAFFE_KNOWN_TYPE(T)` (typeid.h lines 389-400) defines `Get<T>()` as a
  function-local `static const TypeIdentifier type_id = createTypeId()`:
  allocated once on first call, then a cached read.

The allocator state threads the global dynamic-id counter and the per-type
caches of the `CAFFE_KNOWN_TYPE` statics.
-/

/-- Allocator state: the global counter behind `TypeIdentifier::createTypeId`
and, for each dynamically registered type that has been requested at least
once, its cached id (the `static const TypeIdentifier type_id` local of its
`Get` specialization). -/
structure IdState where
  counter : Nat
  assigned : List (CppType × Nat)
deriving DecidableEq, Repr

/-- The cached id of `t`, when its `Get` specialization has already run. -/
def findAssigned : List (CppType × Nat) → CppType → Option Nat
  | [], _ => none
  | p :: ps, t => if p.1 = t then some p.2 else findAssigned ps t

/-- Modelled from the spec: `TypeIdentifier::createTypeId()` is declared at
typeid.h line 44 but its body lives in a translation unit outside `src/`.
Per the spec (sections 4.1 and 9) it is a global atomic fetch-and-increment
counter seeded to start one past the largest reserved constant (27), with a
fatal fail-fast check instead of wrap-around when the `uint16_t` identifier
width would be exceeded; the fatal path is the `none` branch. -/
def TypeIdentifier.createTypeId (s : IdState) : Option (Nat × IdState) :=
  if s.counter < 65536 then some (s.counter, { s with counter := s.counter + 1 })
  else none

/-- Initial allocator state of a run: no dynamic type requested yet, counter
seeded one past the highest reserved constant 27. -/
def initIdState : IdState := { counter := 28, assigned := [] }

/-- `TypeIdentifier::Get<T>()` on the allocator state: the preallocated
specialization returns its fixed constant without touching any state; the
`CAFFE_KNOWN_TYPE` specialization returns its cached id, allocating it via
`createTypeId` on the first call. -/
def TypeIdentifier.Get (t : CppType) (s : IdState) : Option (Nat × IdState) :=
  match t.prealloc with
  | some i => some (i, s)
  | none =>
    match findAssigned s.assigned t with
    | some i => some (i, s)
    | none =>
      match TypeIdentifier.createTypeId s with
      | some (i, s₂) => some (i, { s₂ with assigned := (t, i) :: s₂.assigned })
      | none => none

/-- Run a sequence of `Get` requests from a given state. -/
def runGets : List CppType → IdState → Option IdState
  | [], s => some s
  | t :: ts, s =>
    match TypeIdentifier.Get t s with
    | some (_, s₂) => runGets ts s₂
    | none => none

/-- The types registered with `CAFFE_PREALLOCATED_KNOWN_TYPE`
(typeid.h lines 442-474).  `longT` and `vectorLongT` are the two
registrations guarded by `#ifdef CAFFE2_UNIQUE_LONG_TYPEMETA`
(lines 469-472). -/
inductive BuiltinType where
  | uint8T | int8T | int16T | intT | int64T
  | halfT | floatT | doubleT
  | complexHalfT | complexFloatT | complexDoubleT
  | tensorT | stringT | boolT | uint16T | charT
  | uniquePtrMutexT | uniquePtrAtomicBoolT
  | vectorInt32T | vectorInt64T | vectorUnsignedLongT
  | boolPtrT | charPtrT | intPtrT
  | longT | vectorLongT
  | highestT
deriving DecidableEq, Repr, Fintype

/-- The preallocated id passed to `CAFFE_PREALLOCATED_KNOWN_TYPE` for each
registered built-in type (typeid.h lines 442-474; 11 is deliberately skipped
as the undefined type id, line 453). -/
def BuiltinType.preallocId : BuiltinType → Nat
  | .uint8T => 0
  | .int8T => 1
  | .int16T => 2
  | .intT => 3
  | .int64T => 4
  | .halfT => 5
  | .floatT => 6
  | .doubleT => 7
  | .complexHalfT => 8
  | .complexFloatT => 9
  | .complexDoubleT => 10
  | .tensorT => 12
  | .stringT => 13
  | .boolT => 14
  | .uint16T => 15
  | .charT => 16
  | .uniquePtrMutexT => 17
  | .uniquePtrAtomicBoolT => 18
  | .vectorInt32T => 19
  | .vectorInt64T => 20
  | .vectorUnsignedLongT => 21
  | .boolPtrT => 22
  | .charPtrT => 23
  | .intPtrT => 24
  | .longT => 25
  | .vectorLongT => 26
  | .highestT => 27

/-- Descriptor of each preallocated built-in type: its `#T` display name, the
C++ type traits the builder dispatches on, and its `sizeof` on a typical
LP64 platform (the claims proved below depend on the traits and on which
`sizeof` value is recorded, not on the particular platform numbers). -/
def BuiltinType.toCpp : BuiltinType → CppType
  | .uint8T => ⟨"uint8_t", true, false, true, true, 1, some 0⟩
  | .int8T => ⟨"int8_t", true, false, true, true, 1, some 1⟩
  | .int16T => ⟨"int16_t", true, false, true, true, 2, some 2⟩
  | .intT => ⟨"int", true, false, true, true, 4, some 3⟩
  | .int64T => ⟨"int64_t", true, false, true, true, 8, some 4⟩
  | .halfT => ⟨"at::Half", false, false, true, true, 2, some 5⟩
  | .floatT => ⟨"float", true, false, true, true, 4, some 6⟩
  | .doubleT => ⟨"double", true, false, true, true, 8, some 7⟩
  | .complexHalfT => ⟨"at::ComplexHalf", false, false, true, true, 4, some 8⟩
  | .complexFloatT => ⟨"std::complex<float>", false, false, true, true, 8, some 9⟩
  | .complexDoubleT => ⟨"std::complex<double>", false, false, true, true, 16, some 10⟩
  | .tensorT => ⟨"Tensor", false, false, true, true, 16, some 12⟩
  | .stringT => ⟨"std::string", false, false, true, true, 32, some 13⟩
  | .boolT => ⟨"bool", true, false, true, true, 1, some 14⟩
  | .uint16T => ⟨"uint16_t", true, false, true, true, 2, some 15⟩
  | .charT => ⟨"char", true, false, true, true, 1, some 16⟩
  | .uniquePtrMutexT => ⟨"std::unique_ptr<std::mutex>", false, false, true, false, 8, some 17⟩
  | .uniquePtrAtomicBoolT => ⟨"std::unique_ptr<std::atomic<bool>>", false, false, true, false, 8, some 18⟩
  | .vectorInt32T => ⟨"std::vector<int32_t>", false, false, true, true, 24, some 19⟩
  | .vectorInt64T => ⟨"std::vector<int64_t>", false, false, true, true, 24, some 20⟩
  | .vectorUnsignedLongT => ⟨"std::vector<unsigned long>", false, false, true, true, 24, some 21⟩
  | .boolPtrT => ⟨"bool*", false, true, true, true, 8, some 22⟩
  | .charPtrT => ⟨"char*", false, true, true, true, 8, some 23⟩
  | .intPtrT => ⟨"int*", false, true, true, true, 8, some 24⟩
  | .longT => ⟨"long", true, false, true, true, 8, some 25⟩
  | .vectorLongT => ⟨"std::vector<long>", false, false, true, true, 24, some 26⟩
  | .highestT => ⟨"_CaffeHighestPreallocatedTypeId", false, false, true, true, 1, some 27⟩

/-- Modelled from the spec: the handle-level ordering used as a
sorted-container key.  `src/` contains only the identifier-level
`operator<` (typeid.h lines 73-75); the spec (section 4.3) states that the
handle ordering "delegates to identifier ordering", i.e. it compares the
identifiers stored in the two referenced records. -/
def TypeMeta.ltKey (idOf : CppType → TypeIdentifier) (lhs rhs : TypeMeta) : Bool :=
  TypeIdentifier.ltOp (TypeMeta.id idOf lhs) (TypeMeta.id idOf rhs)

/-- A user-defined class registered with `CAFFE_KNOWN_TYPE` that is neither
default-constructible nor copy-assignable. -/
def noDefaultType : CppType :=
  ⟨"NoDefault", false, false, false, false, 4, none⟩

/-- A user-defined class dynamically registered with `CAFFE_KNOWN_TYPE`. -/
def dynTypeA : CppType :=
  ⟨"CustomA", false, false, true, true, 8, none⟩

/-- A second user-defined class dynamically registered with
`CAFFE_KNOWN_TYPE`. -/
def dynTypeB : CppType :=
  ⟨"CustomB", false, false, true, true, 16, none⟩

/-!  Helper lemmas about the allocator state. -/

/-- Allocator-state invariant maintained by every `Get` call: the counter
stays in `[28, 65536]`, every cached dynamic id lies in `[28, counter)`, and
distinct cached types hold distinct ids. -/
def IdInv (s : IdState) : Prop :=
  28 ≤ s.counter ∧ s.counter ≤ 65536 ∧
  (∀ p ∈ s.assigned, 28 ≤ p.2 ∧ p.2 < s.counter) ∧
  (∀ p ∈ s.assigned, ∀ q ∈ s.assigned, p.2 = q.2 → p.1 = q.1)

theorem idInv_init : IdInv initIdState := by
  refine ⟨by norm_num [initIdState], by norm_num [initIdState], ?_, ?_⟩ <;>
    simp [initIdState]

theorem idInv_get (t : CppType) (s : IdState) (i : Nat) (s₂ : IdState)
    (h : IdInv s) (hg : TypeIdentifier.Get t s = some (i, s₂)) : IdInv s₂ := by
  unfold TypeIdentifier.Get at hg
  rcases hp : t.prealloc with _ | j
  · simp only [hp] at hg
    rcases hf : findAssigned s.assigned t with _ | k
    · simp only [hf] at hg
      unfold TypeIdentifier.createTypeId at hg
      by_cases hc : s.counter < 65536
      · rw [if_pos hc] at hg
        simp only [Option.some.injEq, Prod.mk.injEq] at hg
        obtain ⟨rfl, rfl⟩ := hg
        obtain ⟨h1, h2, h3, h4⟩ := h
        refine ⟨?_, ?_, ?_, ?_⟩
        · show 28 ≤ s.counter + 1
          omega
        · show s.counter + 1 ≤ 65536
          omega
        · intro p hp2
          rcases List.mem_cons.mp hp2 with rfl | hmem
          · exact ⟨h1, Nat.lt_succ_self _⟩
          · obtain ⟨ha, hb⟩ := h3 p hmem
            exact ⟨ha, Nat.lt_succ_of_lt hb⟩
        · intro p hp2 q hq2 hpq
          rcases List.mem_cons.mp hp2 with rfl | hpm <;>
            rcases List.mem_cons.mp hq2 with rfl | hqm
          · rfl
          · exact absurd hpq (by have := (h3 q hqm).2; simp only; omega)
          · exact absurd hpq (by have := (h3 p hpm).2; simp only; omega)
          · exact h4 p hpm q hqm hpq
      · rw [if_neg hc] at hg
        cases hg
    · simp only [hf, Option.some.injEq, Prod.mk.injEq] at hg
      obtain ⟨rfl, rfl⟩ := hg
      exact h
  · simp only [hp, Option.some.injEq, Prod.mk.injEq] at hg
    obtain ⟨rfl, rfl⟩ := hg
    exact h

theorem idInv_runGets (reqs : List CppType) :
    ∀ s s₂, IdInv s → runGets reqs s = some s₂ → IdInv s₂ := by
  induction reqs with
  | nil =>
    intro s s₂ h hr
    simp only [runGets, Option.some.injEq] at hr
    exact hr ▸ h
  | cons t ts ih =>
    intro s s₂ h hr
    unfold runGets at hr
    rcases hg : TypeIdentifier.Get t s with _ | ⟨i, s₁⟩
    · rw [hg] at hr
      cases hr
    · rw [hg] at hr
      exact ih s₁ s₂ (idInv_get t s i s₁ h hg) hr

theorem getD_replicate (d e : Val) :
    ∀ (n i : Nat), i < n → (List.replicate n d).getD i e = d := by
  intro n
  induction n with
  | zero =>
    intro i h
    omega
  | succ m ih =>
    intro i h
    cases i with
    | zero => simp [List.replicate_succ]
    | succ k =>
      have hk := ih k (by omega)
      simpa [List.replicate_succ, List.getD] using hk

theorem getD_replicate_append (d e : Val) (n i : Nat) (h : i < n) (l : Mem) :
    ((List.replicate n d) ++ l).getD i e = d := by
  rw [List.getD_append _ _ _ _ (by simpa using h)]
  exact getD_replicate d e n i h

theorem getD_drop (e : Val) :
    ∀ (l : Mem) (n j : Nat), (l.drop n).getD j e = l.getD (n + j) e := by
  intro l
  induction l with
  | nil =>
    intro n j
    simp
  | cons a tl ih =>
    intro n j
    cases n with
    | zero => simp
    | succ m =>
      have h1 : (a :: tl).drop (m + 1) = tl.drop m := rfl
      have h2 : m + 1 + j = (m + j) + 1 := by omega
      rw [h1, ih m j, h2]
      rfl

/-!  Claim theorems. -/

/-- C1: for every type `T`, repeated calls of `TypeMeta::Make<T>()` return
equal handles referencing the same record, with `Make<T>().Match<T>()` true;
for distinct types the handles are unequal; and handle equality is exactly
pointer identity of the referenced operation-table records. -/
theorem make_eq_is_record_identity :
    (∀ t : CppType, TypeMeta.Make t = TypeMeta.Make t ∧
      TypeMeta.eqOp (TypeMeta.Make t) (TypeMeta.Make t) = true) ∧
    (∀ t : CppType, (TypeMeta.Make t).Match t = true) ∧
    (∀ t₁ t₂ : CppType, t₁ ≠ t₂ →
      TypeMeta.eqOp (TypeMeta.Make t₁) (TypeMeta.Make t₂) = false) ∧
    (∀ a b : TypeMeta, (TypeMeta.eqOp a b = true ↔ a.data_ = b.data_)) := by
  refine ⟨fun t => ⟨rfl, ?_⟩, fun t => ?_, fun t₁ t₂ h => ?_, fun a b => ?_⟩
  · simp [TypeMeta.eqOp]
  · simp [TypeMeta.Match]
  · simpa [TypeMeta.eqOp, TypeMeta.Make] using h
  · simp [TypeMeta.eqOp]

/-- Witness for C1 at two concrete registered types. -/
theorem make_eq_is_record_identity_witness :
    TypeMeta.eqOp (TypeMeta.Make BuiltinType.uint8T.toCpp)
      (TypeMeta.Make BuiltinType.floatT.toCpp) = false :=
  make_eq_is_record_identity.2.2.1 _ _ (by decide)

/-- C2: each type registered with `CAFFE_PREALLOCATED_KNOWN_TYPE` yields its
fixed id from any allocator state, without touching the state; the lowest
reserved ids 0..10 go, in order, to uint8_t, int8_t, int16_t, int, int64_t,
at::Half, float, double, at::ComplexHalf, std::complex<float>,
std::complex<double>; and `_CaffeHighestPreallocatedTypeId` holds the highest
reserved id, 27. -/
theorem preallocated_ids_fixed :
    (∀ (b : BuiltinType) (s : IdState),
      TypeIdentifier.Get b.toCpp s = some (b.preallocId, s)) ∧
    ([BuiltinType.uint8T, BuiltinType.int8T, BuiltinType.int16T,
      BuiltinType.intT, BuiltinType.int64T, BuiltinType.halfT,
      BuiltinType.floatT, BuiltinType.doubleT, BuiltinType.complexHalfT,
      BuiltinType.complexFloatT, BuiltinType.complexDoubleT].map
        BuiltinType.preallocId = [0, 1, 2, 3, 4, 5, 6, 7, 8, 9, 10]) ∧
    BuiltinType.preallocId BuiltinType.uint8T = 0 ∧
    BuiltinType.preallocId BuiltinType.highestT = 27 ∧
    (∀ b : BuiltinType, b.preallocId ≤ BuiltinType.highestT.preallocId) := by
  refine ⟨fun b s => ?_, by decide, rfl, rfl, by decide⟩
  cases b <;> rfl

/-- C3: a default-constructed `TypeMeta` has itemsize 0, null ctor/copy/dtor
pointers, the reserved uninitialized id 11, the fixed placeholder name, and
is unequal to `Make<T>()` for every type `T`. -/
theorem default_handle_is_uninitialized :
    ∀ idOf : CppType → TypeIdentifier,
      TypeMeta.itemsize idOf TypeMeta.mkDefault = 0 ∧
      TypeMeta.ctor idOf TypeMeta.mkDefault = none ∧
      TypeMeta.copy idOf TypeMeta.mkDefault = none ∧
      TypeMeta.dtor idOf TypeMeta.mkDefault = none ∧
      TypeMeta.id idOf TypeMeta.mkDefault = TypeIdentifier.uninitialized ∧
      (TypeMeta.id idOf TypeMeta.mkDefault).underlyingId = 11 ∧
      TypeMeta.name idOf TypeMeta.mkDefault = "nullptr (uninitialized)" ∧
      ∀ t : CppType, TypeMeta.eqOp TypeMeta.mkDefault (TypeMeta.Make t) = false := by
  intro idOf
  refine ⟨rfl, rfl, rfl, rfl, rfl, rfl, rfl, fun t => ?_⟩
  simp [TypeMeta.eqOp, TypeMeta.mkDefault, TypeMeta.Make]

/-- C4: the illegal-operation failure is raised only when the construct
function of a non-default-constructible type's table, or the copy function of
a non-copy-assignable type's table, is actually invoked; building the table
itself installs the stand-in functions without failing (`TypeMetaDataRegistry.data`
is total and populates every field).  The failure message carries the type's
display name and the unsupported operation; the destroy function always
succeeds, and the read-only accessors (`id`, `itemsize`, `ctor`, `copy`,
`dtor`, `name`) are plain projections with no error channel. -/
theorem illegal_op_failure_only_on_invocation :
    ∀ (idOf : CppType → TypeIdentifier) (t : CppType),
      (t.isFundamental || t.isPointer) = false →
      ((TypeMetaDataRegistry.data idOf t).ctor_ = some (_PickCtor t) ∧
       (TypeMetaDataRegistry.data idOf t).copy_ = some (_PickCopy t) ∧
       (TypeMetaDataRegistry.data idOf t).dtor_ = some (_Dtor t)) ∧
      (t.isDefaultConstructible = false →
        ∀ (mem : Mem) (n : Nat),
          _PickCtor t mem n =
            Except.error ("Type " ++ t.name ++ " is not default-constructible.")) ∧
      (t.isDefaultConstructible = true →
        ∀ (mem : Mem) (n : Nat), ∃ out, _PickCtor t mem n = Except.ok out) ∧
      (t.isCopyAssignable = false →
        ∀ (src dst : Mem) (n : Nat),
          _PickCopy t src dst n =
            Except.error ("Type " ++ t.name ++ " does not allow assignment.")) ∧
      (t.isCopyAssignable = true →
        ∀ (src dst : Mem) (n : Nat), ∃ out, _PickCopy t src dst n = Except.ok out) ∧
      (∀ (mem : Mem) (n : Nat), _Dtor t mem n = Except.ok mem) := by
  intro idOf t h
  refine ⟨⟨?_, ?_, ?_⟩, fun hdc mem n => ?_, fun hdc mem n => ?_,
    fun hca src dst n => ?_, fun hca src dst n => ?_, fun mem n => rfl⟩
  · simp [TypeMetaDataRegistry.data, h]
  · simp [TypeMetaDataRegistry.data, h]
  · simp [TypeMetaDataRegistry.data, h]
  · simp [_PickCtor, hdc, _CtorNotDefault]
  · exact ⟨List.replicate n (Val.defaultOf t.name) ++ mem.drop n,
      by simp [_PickCtor, hdc, _Ctor]⟩
  · simp [_PickCopy, hca, _CopyNotAllowed]
  · exact ⟨src.take n ++ dst.drop n, by simp [_PickCopy, hca, _Copy]⟩

/-- Witness for C4 at a concrete non-default-constructible,
non-copy-assignable class type. -/
theorem illegal_op_failure_witness :
    _PickCtor noDefaultType [] 1 =
      Except.error ("Type " ++ noDefaultType.name ++ " is not default-constructible.") ∧
    _PickCopy noDefaultType [] [] 1 =
      Except.error ("Type " ++ noDefaultType.name ++ " does not allow assignment.") ∧
    _Dtor noDefaultType [Val.raw 0] 1 = Except.ok [Val.raw 0] := by
  have h := illegal_op_failure_only_on_invocation
    (fun _ => TypeIdentifier.uninitialized) noDefaultType (by decide)
  exact ⟨h.2.1 (by decide) [] 1, h.2.2.2.1 (by decide) [] [] 1,
    h.2.2.2.2.2 [Val.raw 0] 1⟩

/-- C5: for a default-constructible class type (the general, non-fundamental,
non-pointer builder path), the table's construct function default-constructs
`n` contiguous elements in the given storage: slot `i < n` receives the
type's default-constructed value and slots past `n` are untouched; `n = 0`
leaves the storage unchanged.  Any `n`, including `n = 1` and `n > 1`, is
covered by the universally quantified conjuncts. -/
theorem ctor_initializes_n_contiguous_elements :
    ∀ (idOf : CppType → TypeIdentifier) (t : CppType),
      (t.isFundamental || t.isPointer) = false →
      t.isDefaultConstructible = true →
      (TypeMetaDataRegistry.data idOf t).ctor_ = some (_Ctor t) ∧
      (∀ mem : Mem, _Ctor t mem 0 = Except.ok mem) ∧
      (∀ (mem : Mem) (n : Nat),
        _Ctor t mem n =
          Except.ok (List.replicate n (Val.defaultOf t.name) ++ mem.drop n)) ∧
      (∀ (mem : Mem) (n i : Nat), i < n →
        (List.replicate n (Val.defaultOf t.name) ++ mem.drop n).getD i (Val.raw 0) =
          Val.defaultOf t.name) ∧
      (∀ (mem : Mem) (n i : Nat), n ≤ i →
        (List.replicate n (Val.defaultOf t.name) ++ mem.drop n).getD i (Val.raw 0) =
          mem.getD i (Val.raw 0)) := by
  intro idOf t h hdc
  refine ⟨?_, fun mem => rfl, fun mem n => rfl, fun mem n i hi => ?_, fun mem n i hi => ?_⟩
  · simp [TypeMetaDataRegistry.data, h, _PickCtor, hdc]
  · exact getD_replicate_append _ _ _ _ hi _
  · rw [List.getD_append_right _ _ _ _ (by simpa using hi), List.length_replicate,
      getD_drop]
    congr 1
    omega

/-- Witness for C5: constructing 2 elements of `std::string` in a 3-slot
region initializes the first two slots and keeps the third. -/
theorem ctor_initializes_witness :
    _Ctor BuiltinType.stringT.toCpp [Val.raw 1, Val.raw 2, Val.raw 3] 2 =
      Except.ok [Val.defaultOf "std::string", Val.defaultOf "std::string", Val.raw 3] ∧
    _Ctor BuiltinType.stringT.toCpp [Val.raw 1, Val.raw 2, Val.raw 3] 0 =
      Except.ok [Val.raw 1, Val.raw 2, Val.raw 3] := by
  have h := ctor_initializes_n_contiguous_elements
    (fun _ => TypeIdentifier.uninitialized) BuiltinType.stringT.toCpp
    (by decide) (by decide)
  exact ⟨h.2.2.1 [Val.raw 1, Val.raw 2, Val.raw 3] 2,
    h.2.1 [Val.raw 1, Val.raw 2, Val.raw 3]⟩

/-- C7: for fundamental and pointer types the builder's trivial path stores
null construct/copy/destroy pointers; for every other type the general path
installs the full function table; in both cases the recorded item size is
`sizeof(T)`, the type's in-memory element size. -/
theorem registry_record_shape :
    ∀ (idOf : CppType → TypeIdentifier) (t : CppType),
      ((t.isFundamental || t.isPointer) = true →
        (TypeMetaDataRegistry.data idOf t).ctor_ = none ∧
        (TypeMetaDataRegistry.data idOf t).copy_ = none ∧
        (TypeMetaDataRegistry.data idOf t).dtor_ = none) ∧
      ((t.isFundamental || t.isPointer) = false →
        (TypeMetaDataRegistry.data idOf t).ctor_ = some (_PickCtor t) ∧
        (TypeMetaDataRegistry.data idOf t).copy_ = some (_PickCopy t) ∧
        (TypeMetaDataRegistry.data idOf t).dtor_ = some (_Dtor t)) ∧
      (TypeMetaDataRegistry.data idOf t).itemsize_ = t.size := by
  intro idOf t
  refine ⟨fun h => ?_, fun h => ?_, ?_⟩
  · simp [TypeMetaDataRegistry.data, h]
  · simp [TypeMetaDataRegistry.data, h]
  · by_cases h : (t.isFundamental || t.isPointer) = true
    · simp [TypeMetaDataRegistry.data, h]
    · simp [TypeMetaDataRegistry.data, h]

/-- Witness for C7 at a fundamental type (uint8_t) and a class type
(std::string). -/
theorem registry_record_shape_witness :
    (TypeMetaDataRegistry.data (fun _ => TypeIdentifier.uninitialized)
      BuiltinType.uint8T.toCpp).ctor_ = none ∧
    (TypeMetaDataRegistry.data (fun _ => TypeIdentifier.uninitialized)
      BuiltinType.stringT.toCpp).ctor_ = some (_PickCtor BuiltinType.stringT.toCpp) ∧
    (TypeMetaDataRegistry.data (fun _ => TypeIdentifier.uninitialized)
      BuiltinType.uint8T.toCpp).itemsize_ = 1 :=
  ⟨((registry_record_shape _ _).1 (by decide)).1,
   ((registry_record_shape _ _).2.1 (by decide)).1,
   (registry_record_shape _ _).2.2⟩

/-- C6: no preallocated registration uses the reserved uninitialized id 11;
and in any run (any sequence of `Get` requests from the initial state) every
dynamically allocated id is issued strictly above the highest reserved
constant 27 — hence differs from every reserved id and from 11 — and no two
distinct dynamically registered types receive the same id. -/
theorem reserved_sentinel_and_dynamic_id_freshness :
    (∀ b : BuiltinType, b.preallocId ≠ 11) ∧
    TypeIdentifier.uninitialized.underlyingId = 11 ∧
    (∀ b : BuiltinType, b.preallocId ≤ 27) ∧
    (∀ (reqs : List CppType) (s₂ : IdState),
      runGets reqs initIdState = some s₂ →
      ∀ p ∈ s₂.assigned,
        27 < p.2 ∧ (∀ b : BuiltinType, p.2 ≠ b.preallocId) ∧ p.2 ≠ 11 ∧
        ∀ q ∈ s₂.assigned, p.2 = q.2 → p.1 = q.1) := by
  refine ⟨by decide, rfl, by decide, ?_⟩
  intro reqs s₂ hr p hp2
  obtain ⟨h1, h2, h3, h4⟩ := idInv_runGets reqs initIdState s₂ idInv_init hr
  obtain ⟨ha, hb⟩ := h3 p hp2
  have hble : ∀ b : BuiltinType, b.preallocId ≤ 27 := by decide
  exact ⟨by omega, fun b hbe => by have := hble b; omega, by omega,
    fun q hq hpq => h4 p hp2 q hq hpq⟩

/-- Witness for C6: a run registering two fresh class types gives them the
ids 28 and 29, both above every reserved id and distinct. -/
theorem dynamic_id_freshness_witness :
    27 < (28 : Nat) ∧ (∀ b : BuiltinType, (28 : Nat) ≠ b.preallocId) ∧
    (28 : Nat) ≠ 11 ∧
    ∀ q ∈ [(dynTypeB, 29), (dynTypeA, 28)], (28 : Nat) = q.2 → dynTypeA = q.1 :=
  reserved_sentinel_and_dynamic_id_freshness.2.2.2
    [dynTypeA, dynTypeB]
    { counter := 30, assigned := [(dynTypeB, 29), (dynTypeA, 28)] }
    (by decide) (dynTypeA, 28) (by decide)

/-- C10: every identifier the registry can hold — the reserved constants,
the uninitialized sentinel 11, and every dynamically allocated id (whose
allocator, modelled from the spec, fails fast instead of exceeding the
`uint16_t` width) — lies below 2^16 = 65536, the size of the `uint16_t`
identifier space of `TypeIdentifier`. -/
theorem ids_fit_in_uint16 :
    (∀ b : BuiltinType, b.preallocId < 65536) ∧
    TypeIdentifier.uninitialized.underlyingId < 65536 ∧
    (∀ (reqs : List CppType) (s₂ : IdState),
      runGets reqs initIdState = some s₂ → ∀ p ∈ s₂.assigned, p.2 < 65536) ∧
    (∀ (s : IdState) (i : Nat) (s₂ : IdState),
      TypeIdentifier.createTypeId s = some (i, s₂) → i < 65536) ∧
    65536 = 2 ^ 16 := by
  refine ⟨by decide, by norm_num [TypeIdentifier.uninitialized], ?_, ?_, by norm_num⟩
  · intro reqs s₂ hr p hp2
    obtain ⟨h1, h2, h3, h4⟩ := idInv_runGets reqs initIdState s₂ idInv_init hr
    obtain ⟨ha, hb⟩ := h3 p hp2
    omega
  · intro s i s₂ hc
    unfold TypeIdentifier.createTypeId at hc
    by_cases h : s.counter < 65536
    · rw [if_pos h] at hc
      simp only [Option.some.injEq, Prod.mk.injEq] at hc
      omega
    · rw [if_neg h] at hc
      cases hc

/-- Witness for C10: in the two-registration run, the allocated ids 28 and
29 are representable in a `uint16_t`. -/
theorem ids_fit_in_uint16_witness : (28 : Nat) < 65536 ∧ (29 : Nat) < 65536 :=
  ⟨ids_fit_in_uint16.2.2.1 [dynTypeA, dynTypeB]
      { counter := 30, assigned := [(dynTypeB, 29), (dynTypeA, 28)] }
      (by decide) (dynTypeA, 28) (by decide),
   ids_fit_in_uint16.2.2.1 [dynTypeA, dynTypeB]
      { counter := 30, assigned := [(dynTypeB, 29), (dynTypeA, 28)] }
      (by decide) (dynTypeB, 29) (by decide)⟩

/-- C8: the sorted-container-key ordering of handles delegates to the
identifier ordering, and the identifier ordering `operator<` is a strict
weak ordering that holds exactly when the underlying numeric value of the
left identifier is less than that of the right one. -/
theorem identifier_ordering_strict_weak :
    (∀ (idOf : CppType → TypeIdentifier) (lhs rhs : TypeMeta),
      TypeMeta.ltKey idOf lhs rhs =
        TypeIdentifier.ltOp (TypeMeta.id idOf lhs) (TypeMeta.id idOf rhs)) ∧
    (∀ a b : TypeIdentifier,
      TypeIdentifier.ltOp a b = true ↔ a.underlyingId < b.underlyingId) ∧
    (∀ a : TypeIdentifier, TypeIdentifier.ltOp a a = false) ∧
    (∀ a b : TypeIdentifier,
      TypeIdentifier.ltOp a b = true → TypeIdentifier.ltOp b a = false) ∧
    (∀ a b c : TypeIdentifier,
      TypeIdentifier.ltOp a b = true → TypeIdentifier.ltOp b c = true →
        TypeIdentifier.ltOp a c = true) ∧
    (∀ a b c : TypeIdentifier,
      TypeIdentifier.ltOp a b = false → TypeIdentifier.ltOp b a = false →
      TypeIdentifier.ltOp b c = false → TypeIdentifier.ltOp c b = false →
        TypeIdentifier.ltOp a c = false ∧ TypeIdentifier.ltOp c a = false) := by
  refine ⟨fun idOf l r => rfl, fun a b => by simp [TypeIdentifier.ltOp],
    fun a => by simp [TypeIdentifier.ltOp], fun a b h1 => ?_, fun a b c h1 h2 => ?_,
    fun a b c h1 h2 h3 h4 => ?_⟩
  · simp only [TypeIdentifier.ltOp, decide_eq_true_eq] at h1
    simp only [TypeIdentifier.ltOp, decide_eq_false_iff_not, not_lt]
    omega
  · simp only [TypeIdentifier.ltOp, decide_eq_true_eq] at h1 h2 ⊢
    omega
  · simp only [TypeIdentifier.ltOp, decide_eq_false_iff_not, not_lt] at h1 h2 h3 h4 ⊢
    omega

/-- Witness for C8: transitivity of the identifier ordering at the concrete
ids 0, 1, 2. -/
theorem identifier_ordering_witness :
    TypeIdentifier.ltOp ⟨0⟩ ⟨2⟩ = true :=
  identifier_ordering_strict_weak.2.2.2.2.1 ⟨0⟩ ⟨1⟩ ⟨2⟩ (by decide) (by decide)
